import Mathlib

/-
  Verification development for the lnd-backup storage layer
  (storage_providers.py, azure_provider.py, dropbox_backup.py,
   backup.py, tapd_backup.py).

  The Python code is shallowly embedded below: pure fragments become Lean
  functions, the local filesystem and Python dicts become association
  lists, remote-attempt outcomes become an explicit outcome oracle, and
  Python exceptions become Except / explicit outcome constructors.
  File contents are byte lists (List Nat), modification times are Nat.
-/

namespace LndBackup

/-- Substring containment test on character lists, modelling the Python
expression needle in haystack for strings. -/
def occursIn (needle : List Char) : List Char → Bool
  | [] => needle.isEmpty
  | c :: rest => needle.isPrefixOf (c :: rest) || occursIn needle rest

/-- StorageProvider.get_system_backup_dir in storage_providers.py. -/
def get_system_backup_dir (backup_dir system_id : String) : String :=
  backup_dir ++ "/" ++ system_id

/-- StorageProvider.generate_backup_paths in storage_providers.py:
returns the timestamped path and the latest-pointer path. -/
def generate_backup_paths (backup_dir system_id timestamp : String) :
    String × String :=
  (get_system_backup_dir backup_dir system_id ++ "/channel-backup-" ++ timestamp ++ ".backup",
   get_system_backup_dir backup_dir system_id ++ "/channel-latest.backup")

/-- The filter in StorageProvider.cleanup_old_backups (storage_providers.py,
lines 90-93): a record is a timestamped backup when its path contains the
marker and ends with the backup suffix. -/
def matchesBackupFilter (path : String) : Bool :=
  occursIn "/channel-backup-".data path.data && List.isSuffixOf ".backup".data path.data

/-- The list backup_files of cleanup_old_backups: listing entries that pass
matchesBackupFilter. -/
def matchingBackups (backups : List (String × Nat)) : List (String × Nat) :=
  backups.filter (fun x => matchesBackupFilter x.1)

/-- Ordering used by backup_files.sort with the modification-time key and
reverse set: an entry a may stay before b when the time of b is at most the
time of a. -/
def newerFirst (a b : String × Nat) : Prop := b.2 ≤ a.2

instance : DecidableRel newerFirst := fun a b => Nat.decLe b.2 a.2

instance : IsTotal (String × Nat) newerFirst := ⟨fun a b => Nat.le_total b.2 a.2⟩

instance : IsTrans (String × Nat) newerFirst := ⟨fun _ _ _ h1 h2 => Nat.le_trans h2 h1⟩

/-- The in-place stable sort of backup_files, newest first. Python list.sort
is stable; List.insertionSort with newerFirst is the corresponding stable
descending sort by modification time. -/
def sortedBackups (backups : List (String × Nat)) : List (String × Nat) :=
  (matchingBackups backups).insertionSort newerFirst

/-- The deletion attempts of cleanup_old_backups: when more than keep_last_n
records match, every record of the sorted list beyond index keep_last_n has
delete_file called on it (storage_providers.py, lines 97-103). -/
def cleanupDeletions (keep_last_n : Nat) (backups : List (String × Nat)) :
    List (String × Nat) :=
  if keep_last_n < (matchingBackups backups).length then
    (sortedBackups backups).drop keep_last_n
  else []

/-- The matching records that survive the pruning pass: the sorted list is
split into the kept first keep_last_n entries and the deleted remainder, so
the survivors are the take of the sorted list. -/
def cleanupKept (keep_last_n : Nat) (backups : List (String × Nat)) :
    List (String × Nat) :=
  (sortedBackups backups).take keep_last_n

/-- StorageProvider.cleanup_old_backups (storage_providers.py, lines 86-109).
The listing argument is the result of self.list_backups(); a raised listing
error is the Except.error case, caught by the outer try and answered with 0.
The result pairs the records whose deletion is attempted with the returned
count len(backup_files). -/
def cleanup_old_backups (keep_last_n : Nat)
    (listing : Except Unit (List (String × Nat))) :
    List (String × Nat) × Nat :=
  match listing with
  | Except.error _ => ([], 0)
  | Except.ok backups => (cleanupDeletions keep_last_n backups, (matchingBackups backups).length)

/-- The figure printed by the callers of cleanup_old_backups
(azure_provider.py line 147, backup.py line 96): min of the returned total
and keep_last_n. -/
def maintained_display (total keep_last_n : Nat) : Nat :=
  min total keep_last_n

/-- Association-list update modelling both a Python dict key assignment and
an overwriting file write: replace in place when the key is present,
append otherwise. -/
def alistSet {α : Type} (m : List (String × α)) (p : String) (c : α) :
    List (String × α) :=
  if m.any (fun e => e.1 == p) then
    m.map (fun e => if e.1 == p then (p, c) else e)
  else m ++ [(p, c)]

/-- Association-list lookup: the value stored at a key, when present. -/
def alistGet {α : Type} (m : List (String × α)) (p : String) : Option α :=
  (m.find? (fun e => e.1 == p)).map (fun e => e.2)

/-- A local filesystem: full paths mapped to byte contents. -/
abbrev Fs := List (String × List Nat)

/-- Path of the timestamped local mirror copy written by
StorageProvider.local_backup. -/
def localTimestampedPath (local_backup_dir timestamp : String) : String :=
  local_backup_dir ++ "/channel-backup-" ++ timestamp ++ ".backup"

/-- Path of the latest local mirror copy written by
StorageProvider.local_backup. -/
def localLatestPath (local_backup_dir : String) : String :=
  local_backup_dir ++ "/channel-latest.backup"

/-- Membership in the glob channel-backup-*.backup of the local backup
directory: the path is directly inside the directory (no further slash) and
the filename starts with channel-backup- and ends with .backup. -/
def isLocalBackupFile (local_backup_dir path : String) : Bool :=
  List.isPrefixOf (local_backup_dir ++ "/").data path.data &&
  (let name := path.data.drop (local_backup_dir ++ "/").length
   List.isPrefixOf "channel-backup-".data name &&
   List.isSuffixOf ".backup".data name &&
   !(name.contains '/'))

/-- Lexicographic character-list comparison, modelling the path ordering
used by sorted() over the glob results. -/
def lexLe : List Char → List Char → Bool
  | [], _ => true
  | _ :: _, [] => false
  | a :: as, b :: bs => if a < b then true else if b < a then false else lexLe as bs

/-- Ordering of local backup filenames for the local pruning pass. -/
def pathLe (a b : String) : Prop := lexLe a.data b.data = true

instance : DecidableRel pathLe := fun a b => instDecidableEqBool (lexLe a.data b.data) true

/-- StorageProvider._cleanup_local_backups (storage_providers.py, lines
75-84): glob the local directory, sort ascending, and when more than
keep_last_n files match, unlink all but the last keep_last_n of them. -/
def cleanup_local_backups (keep_last_n : Nat) (local_backup_dir : String)
    (fs : Fs) : Fs :=
  let backups := (fs.map (fun e => e.1)).filter (fun p => isLocalBackupFile local_backup_dir p)
  let sortedB := backups.insertionSort pathLe
  let toDelete :=
    if keep_last_n < sortedB.length then sortedB.take (sortedB.length - keep_last_n)
    else []
  fs.filter (fun e => !(toDelete.contains e.1))

/-- The two overwriting writes of StorageProvider.local_backup: the
timestamped copy first, then the latest copy, both with the same bytes. -/
def local_backup_writes (local_backup_dir : String) (fs : Fs)
    (file_contents : List Nat) (timestamp : String) : Fs :=
  alistSet (alistSet fs (localTimestampedPath local_backup_dir timestamp) file_contents)
    (localLatestPath local_backup_dir) file_contents

/-- StorageProvider.local_backup (storage_providers.py, lines 56-73):
write the timestamped and latest copies, then run the local pruning pass.
The Boolean result and the failure branch (which only logs a warning) are
not tracked; the function yields the resulting local filesystem. -/
def local_backup (keep_last_n : Nat) (local_backup_dir : String) (fs : Fs)
    (file_contents : List Nat) (timestamp : String) : Fs :=
  cleanup_local_backups keep_last_n local_backup_dir
    (local_backup_writes local_backup_dir fs file_contents timestamp)

/-- Outcome of one body execution of the upload retry loop: full success,
a retryable failure (generic exception or retryable API error), or the
non-retryable insufficient-space API error of dropbox_backup.py. -/
inductive AttemptOutcome : Type where
  | success : AttemptOutcome
  | retryableFailure : AttemptOutcome
  | nonRetryableFailure : AttemptOutcome
deriving DecidableEq

/-- Observable behaviour of one run of the retry loop: the returned flag,
how many attempts were executed, and the backoff sleeps performed between
attempts, in order. -/
structure RetryResult : Type where
  success : Bool
  attempts : Nat
  sleeps : List Nat
deriving DecidableEq

/-- One step of the retry loop shared by upload_to_dropbox
(dropbox_backup.py, lines 92-158) and
AzureStorageProvider.upload_backup_with_retry (azure_provider.py, lines
133-160). The first argument counts the loop iterations still available
(max_retries - attempt); on a retryable failure with iterations remaining
the loop sleeps 2 ^ attempt seconds and continues, on the last iteration it
returns failure, and a non-retryable failure returns failure at once. -/
def runRetryAux (outcomes : Nat → AttemptOutcome) : Nat → Nat → RetryResult
  | 0, _ => ⟨false, 0, []⟩
  | remaining + 1, attempt =>
    match outcomes attempt with
    | AttemptOutcome.success => ⟨true, 1, []⟩
    | AttemptOutcome.nonRetryableFailure => ⟨false, 1, []⟩
    | AttemptOutcome.retryableFailure =>
      if 0 < remaining then
        let r := runRetryAux outcomes remaining (attempt + 1)
        ⟨r.success, r.attempts + 1, 2 ^ attempt :: r.sleeps⟩
      else ⟨false, 1, []⟩

/-- The retry loop for attempt in range(max_retries), started at attempt 0
with max_retries iterations available. -/
def runRetry (outcomes : Nat → AttemptOutcome) (max_retries : Nat) : RetryResult :=
  runRetryAux outcomes max_retries 0

/-- Outcome of one Azure loop body from the results of the two upload_file
calls: the timestamped upload runs first and its failure raises before the
latest upload is tried; any raised exception is retryable
(azure_provider.py, lines 134-158). -/
def azureAttempt (pair : Bool × Bool) : AttemptOutcome :=
  if pair.1 then
    (if pair.2 then AttemptOutcome.success else AttemptOutcome.retryableFailure)
  else AttemptOutcome.retryableFailure

/-- Observable behaviour of AzureStorageProvider.upload_backup_with_retry:
loop result plus the local filesystem it leaves behind. -/
structure UploadResult : Type where
  success : Bool
  attempts : Nat
  sleeps : List Nat
  localFs : Fs
deriving DecidableEq

/-- AzureStorageProvider.upload_backup_with_retry (azure_provider.py, lines
123-160): local_backup runs first, unconditionally, then the retry loop of
timestamped-then-latest upload pairs runs; the loop performs no local
filesystem operation, so the local state after the call is exactly the
state local_backup produced. The uploads oracle gives, per attempt index,
the Boolean results of the timestamped and latest upload_file calls. -/
def upload_backup_with_retry (keep_last_n : Nat) (local_backup_dir : String)
    (fs : Fs) (file_contents : List Nat) (timestamp : String)
    (uploads : Nat → Bool × Bool) (max_retries : Nat) : UploadResult :=
  let fs2 := local_backup keep_last_n local_backup_dir fs file_contents timestamp
  let r := runRetry (fun i => azureAttempt (uploads i)) max_retries
  ⟨r.success, r.attempts, r.sleeps, fs2⟩

/-- upload_to_dropbox (dropbox_backup.py, lines 75-158): the missing-file
and failed-client checks return failure before any attempt; otherwise the
retry loop runs with the per-attempt outcome oracle. -/
def upload_to_dropbox (file_exists client_ok : Bool)
    (outcomes : Nat → AttemptOutcome) (max_retries : Nat) : RetryResult :=
  if file_exists = false then ⟨false, 0, []⟩
  else if client_ok = false then ⟨false, 0, []⟩
  else runRetry outcomes max_retries

/-- The loop body of AzureStorageProvider.list_backups (azure_provider.py,
lines 87-93) over the blobs the service returned: keep, in order, the blobs
whose name ends with .backup. -/
def list_backups_loop : List (String × Nat) → List (String × Nat)
  | [] => []
  | b :: rest =>
    if List.isSuffixOf ".backup".data b.1.data then b :: list_backups_loop rest
    else list_backups_loop rest

/-- AzureStorageProvider.list_backups (azure_provider.py, lines 81-101):
the service lists the blobs whose name starts with the system directory,
and the loop keeps those ending with .backup. The blobs argument models
the whole container listing with last-modified times. -/
def list_backups (blobs : List (String × Nat)) (system_dir : String) :
    List (String × Nat) :=
  list_backups_loop (blobs.filter (fun b => List.isPrefixOf system_dir.data b.1.data))

/-- Modelled from the spec: the spec sentence for claim C7 describes
list_backups as returning the entries under the caller-scoped prefix
unfiltered by name pattern. This definition follows those words, for
comparison with the list_backups definition taken from the source. -/
def list_backups_specUnfiltered (blobs : List (String × Nat))
    (system_dir : String) : List (String × Nat) :=
  blobs.filter (fun b => List.isPrefixOf system_dir.data b.1.data)

/-- The exceptions distinguished by AzureStorageProvider.delete_file. -/
inductive AzureException : Type where
  | resourceNotFound : AzureException
  | azureError : AzureException
  | otherError : AzureException
deriving DecidableEq

/-- The delete_blob service call: with no injected transport fault it
removes an existing blob and raises ResourceNotFoundError for a missing
one; the fault argument injects the other failure modes. -/
def blobDeleteCall (fault : Option AzureException) (container : List String)
    (path : String) : Except AzureException (List String) :=
  match fault with
  | some e => Except.error e
  | none =>
    if container.contains path then Except.ok (container.erase path)
    else Except.error AzureException.resourceNotFound

/-- AzureStorageProvider.delete_file (azure_provider.py, lines 103-117):
the ResourceNotFoundError branch answers success, the other exception
branches answer failure; the result pairs the Boolean with the container
state after the call. -/
def delete_file (fault : Option AzureException) (container : List String)
    (path : String) : Bool × List String :=
  match blobDeleteCall fault container path with
  | Except.ok c2 => (true, c2)
  | Except.error AzureException.resourceNotFound => (true, container)
  | Except.error _ => (false, container)

/-- A configuration dictionary: string keys to string values. -/
abbrev Dict := List (String × String)

/-- The key added to the copied config by
create_provider_from_connection_string. -/
def connection_string_key : String := "connection_string"

/-- Errors raised by the factory methods of StorageProviderFactory. The
unknownProvider constructor carries the offending name together with the
list of registered provider names, modelling the message text Unknown
provider name, Available: comma-joined registered names. -/
inductive FactoryError : Type where
  | emptyConnectionString : FactoryError
  | unknownProvider (name : String) (available : List String) : FactoryError
deriving DecidableEq

/-- Characters allowed after the first one in a URL scheme by urlparse. -/
def isSchemeChar (c : Char) : Bool :=
  c.isAlphanum || c == '+' || c == '-' || c == '.'

/-- Scheme extraction of urlparse: the part before the first colon, when it
starts with a letter and continues with scheme characters, lowercased;
otherwise the empty scheme. -/
def extractScheme (s : List Char) : List Char :=
  let pre := s.takeWhile (fun c => c ≠ ':')
  let rest := s.dropWhile (fun c => c ≠ ':')
  match rest with
  | [] => []
  | _ :: _ =>
    match pre with
    | [] => []
    | c :: cs =>
      if c.isAlpha && cs.all isSchemeChar then (c :: cs).map Char.toLower else []

/-- The provider name urlparse extracts from a connection string. -/
def schemeOf (connection_string : String) : String :=
  String.mk (extractScheme connection_string.data)

/-- StorageProviderFactory.create_provider_from_connection_string
(storage_providers.py, lines 122-141). The providers argument is the list
of registered scheme names; a provider instance is represented by the
config dict its constructor received. Because the source copies the config
dict before adding the connection-string key, the success value pairs the
dict handed to the constructor with the caller-owned dict as it stands
after the call; an embedding of the same code without the copy would hand
the mutated dict back in both components. -/
def create_provider_from_connection_string (providers : List String)
    (connection_string : String) (config : Dict) :
    Except FactoryError (Dict × Dict) :=
  if connection_string = "" then Except.error FactoryError.emptyConnectionString
  else
    let provider_name := schemeOf connection_string
    if providers.contains provider_name then
      let config2 := alistSet config connection_string_key connection_string
      Except.ok (config2, config)
    else
      Except.error (FactoryError.unknownProvider provider_name providers)

/-- StorageProviderFactory.create_provider (storage_providers.py, lines
143-151), the explicit-type legacy method: no scheme parsing and no config
copy, the constructor receives the caller config as is. -/
def create_provider (providers : List String) (provider_name : String)
    (config : Dict) : Except FactoryError Dict :=
  if providers.contains provider_name then Except.ok config
  else Except.error (FactoryError.unknownProvider provider_name providers)

/-- backup.py main (lines 104-144): a missing connection string (after the
environment and credential-file lookups) exits 1 before the source file is
examined; an absent source file exits 0; otherwise the exit code follows
the perform_backup result. -/
def backup_main (connection_string : Option String)
    (file_exists backup_ok : Bool) : Nat :=
  match connection_string with
  | none => 1
  | some _ => if file_exists = false then 0 else if backup_ok then 0 else 1

/-- tapd_backup.py main (lines 319-367): an absent tapd data directory
exits 0 before anything else; an existing directory with no database files
(create_backup_archive returning None) exits 1; otherwise the exit code
follows the upload result. -/
def tapd_main (dir_exists db_files_found upload_ok : Bool) : Nat :=
  if dir_exists = false then 0
  else if db_files_found = false then 1
  else if upload_ok then 0 else 1

end LndBackup

namespace LndBackup

theorem isPrefixOf_refl (l : List Char) : l.isPrefixOf l = true := by
  induction l with
  | nil => rfl
  | cons c t ih => simp [List.isPrefixOf, ih]

theorem isPrefixOf_length_le {l₁ l₂ : List Char} (h : l₁.isPrefixOf l₂ = true) :
    l₁.length ≤ l₂.length := by
  induction l₁ generalizing l₂ with
  | nil => simp
  | cons a as ih =>
    cases l₂ with
    | nil => simp [List.isPrefixOf] at h
    | cons b bs =>
      simp only [List.isPrefixOf, Bool.and_eq_true] at h
      simpa [Nat.succ_le_succ_iff] using ih h.2

theorem isPrefixOf_eq_of_le {l₁ l₂ : List Char} (h : l₁.isPrefixOf l₂ = true)
    (hl : l₂.length ≤ l₁.length) : l₁ = l₂ := by
  induction l₁ generalizing l₂ with
  | nil =>
    cases l₂ with
    | nil => rfl
    | cons b bs => simp at hl
  | cons a as ih =>
    cases l₂ with
    | nil => simp [List.isPrefixOf] at h
    | cons b bs =>
      simp only [List.isPrefixOf, Bool.and_eq_true, beq_iff_eq] at h
      simp only [List.length_cons, Nat.succ_le_succ_iff] at hl
      rw [h.1, ih h.2 hl]

theorem isPrefixOf_append_cases {n a b : List Char} (h : n.isPrefixOf (a ++ b) = true) :
    n.isPrefixOf a = true ∨ (a.isPrefixOf n = true ∧ (n.drop a.length).isPrefixOf b = true) := by
  induction a generalizing n with
  | nil => exact Or.inr ⟨by simp [List.isPrefixOf], by simpa using h⟩
  | cons x xs ih =>
    cases n with
    | nil => exact Or.inl rfl
    | cons y ys =>
      simp only [List.cons_append, List.isPrefixOf, Bool.and_eq_true] at h
      rcases ih h.2 with h1 | ⟨h2, h3⟩
      · exact Or.inl (by simp only [List.isPrefixOf, Bool.and_eq_true]; exact ⟨h.1, h1⟩)
      · refine Or.inr ⟨?_, ?_⟩
        · simp only [List.isPrefixOf, Bool.and_eq_true]
          exact ⟨by rw [beq_iff_eq] at h ⊢; exact h.1.symm, h2⟩
        · simpa using h3

theorem occursIn_append_cases {n : List Char} (a b : List Char)
    (h : occursIn n (a ++ b) = true) :
    occursIn n a = true ∨ occursIn n b = true
      ∨ ∃ k, 0 < k ∧ k < n.length ∧ (n.drop k).isPrefixOf b = true := by
  induction a with
  | nil => exact Or.inr (Or.inl (by simpa using h))
  | cons c t ih =>
    rw [List.cons_append] at h
    simp only [occursIn, Bool.or_eq_true] at h
    rcases h with hp | ho
    · rcases isPrefixOf_append_cases (a := c :: t) (by simpa using hp) with h1 | ⟨h2, h3⟩
      · exact Or.inl (by simp only [occursIn, Bool.or_eq_true]; exact Or.inl h1)
      · have hle : (c :: t).length ≤ n.length := isPrefixOf_length_le h2
        rcases Nat.lt_or_ge (c :: t).length n.length with hlt | hge
        · exact Or.inr (Or.inr ⟨(c :: t).length, by simp, hlt, h3⟩)
        · have := isPrefixOf_eq_of_le h2 hge
          refine Or.inl ?_
          simp only [occursIn, Bool.or_eq_true]
          exact Or.inl (this ▸ isPrefixOf_refl n)
    · rcases ih ho with h1 | h2
      · exact Or.inl (by simp only [occursIn, Bool.or_eq_true]; exact Or.inr h1)
      · exact Or.inr h2

theorem occursIn_append_of_not {n : List Char} (a b : List Char)
    (ha : occursIn n a = false) (hb : occursIn n b = false)
    (hs : ∀ k, k < n.length → 0 < k → (n.drop k).isPrefixOf b = false) :
    occursIn n (a ++ b) = false := by
  cases hx : occursIn n (a ++ b) with
  | false => rfl
  | true =>
    rcases occursIn_append_cases a b hx with h1 | h2 | ⟨k, hk0, hkn, hkp⟩
    · rw [ha] at h1; exact absurd h1 (by simp)
    · rw [hb] at h2; exact absurd h2 (by simp)
    · rw [hs k hkn hk0] at hkp; exact absurd hkp (by simp)

end LndBackup

namespace LndBackup

theorem latest_pointer_not_matching (sysDir : String)
    (h : occursIn "/channel-backup-".data sysDir.data = false) :
    matchesBackupFilter (sysDir ++ "/channel-latest.backup") = false := by
  have hocc : occursIn "/channel-backup-".data (sysDir ++ "/channel-latest.backup").data
      = false := by
    rw [String.data_append]
    exact occursIn_append_of_not _ _ h (by decide) (by decide)
  show (occursIn "/channel-backup-".data (sysDir ++ "/channel-latest.backup").data
      && List.isSuffixOf ".backup".data (sysDir ++ "/channel-latest.backup").data) = false
  rw [hocc, Bool.false_and]

theorem sortedBackups_length (backups : List (String × Nat)) :
    (sortedBackups backups).length = (matchingBackups backups).length :=
  (List.perm_insertionSort newerFirst (matchingBackups backups)).length_eq

/-- C1: for keep_last_n = N and a listing with M > N records matching the
backup filter, the retention pass attempts exactly M - N deletions, the
surviving matching records are exactly the N most-recently-modified ones
(every survivor has modification time at least that of every deleted
record), and the latest-pointer path produced by generate_backup_paths does
not match the filter, so it is never counted and never deleted; the marker
hypothesis rules out a system directory that itself contains the
channel-backup marker. -/
theorem retention_pass_C1 (keep_last_n : Nat) (backups : List (String × Nat))
    (backup_dir system_id timestamp : String)
    (hM : keep_last_n < (matchingBackups backups).length)
    (hdir : occursIn "/channel-backup-".data
        (get_system_backup_dir backup_dir system_id).data = false) :
    (cleanupDeletions keep_last_n backups).length
        = (matchingBackups backups).length - keep_last_n
    ∧ (cleanupKept keep_last_n backups).length = keep_last_n
    ∧ (∀ k ∈ cleanupKept keep_last_n backups,
        ∀ d ∈ cleanupDeletions keep_last_n backups, d.2 ≤ k.2)
    ∧ matchesBackupFilter (generate_backup_paths backup_dir system_id timestamp).2 = false := by
  have hlen := sortedBackups_length backups
  have hdel : cleanupDeletions keep_last_n backups
      = (sortedBackups backups).drop keep_last_n := by
    simp [cleanupDeletions, hM]
  refine ⟨?_, ?_, ?_, ?_⟩
  · rw [hdel, List.length_drop, hlen]
  · simp only [cleanupKept]
    rw [List.length_take, hlen, inf_eq_min]
    exact Nat.min_eq_left (Nat.le_of_lt hM)
  · intro k hk d hd
    have hpw : List.Pairwise newerFirst (sortedBackups backups) :=
      List.sorted_insertionSort newerFirst (matchingBackups backups)
    have hsplit := List.take_append_drop keep_last_n (sortedBackups backups)
    rw [← hsplit] at hpw
    have hcross := (List.pairwise_append.mp hpw).2.2
    rw [hdel] at hd
    simp only [cleanupKept] at hk
    exact hcross k hk d hd
  · exact latest_pointer_not_matching _ hdir

/-- Witness for C1: two matching records, keep_last_n one. -/
theorem retention_pass_C1_witness :
    (1 < (matchingBackups [("/channel-backup-a.backup", 5),
          ("/channel-backup-b.backup", 3)]).length
      ∧ occursIn "/channel-backup-".data (get_system_backup_dir "/b" "d").data = false)
    ∧ ((cleanupDeletions 1 [("/channel-backup-a.backup", 5),
            ("/channel-backup-b.backup", 3)]).length
          = (matchingBackups [("/channel-backup-a.backup", 5),
              ("/channel-backup-b.backup", 3)]).length - 1
        ∧ (cleanupKept 1 [("/channel-backup-a.backup", 5),
            ("/channel-backup-b.backup", 3)]).length = 1
        ∧ (∀ k ∈ cleanupKept 1 [("/channel-backup-a.backup", 5),
              ("/channel-backup-b.backup", 3)],
            ∀ d ∈ cleanupDeletions 1 [("/channel-backup-a.backup", 5),
              ("/channel-backup-b.backup", 3)], d.2 ≤ k.2)
        ∧ matchesBackupFilter (generate_backup_paths "/b" "d" "t").2 = false) :=
  ⟨⟨by decide, by decide⟩,
    retention_pass_C1 1 [("/channel-backup-a.backup", 5), ("/channel-backup-b.backup", 3)]
      "/b" "d" "t" (by decide) (by decide)⟩

end LndBackup

namespace LndBackup

theorem pow_sleeps_shift (attempt k : Nat) :
    (List.range (k + 1)).map (fun i => 2 ^ (attempt + i))
      = 2 ^ attempt :: (List.range k).map (fun i => 2 ^ (attempt + 1 + i)) := by
  rw [List.range_succ_eq_map, List.map_cons, List.map_map]
  refine congrArg₂ List.cons (by rw [Nat.add_zero]) ?_
  refine List.map_congr_left (fun a _ => ?_)
  simp only [Function.comp_apply, Nat.succ_eq_add_one]
  exact congrArg (fun x => 2 ^ x) (by omega)

theorem runRetryAux_stops (outcomes : Nat → AttemptOutcome) (b : Bool)
    (k attempt remaining : Nat) (hk : k < remaining)
    (hfail : ∀ i, i < k → outcomes (attempt + i) = AttemptOutcome.retryableFailure)
    (hstop : (outcomes (attempt + k) = AttemptOutcome.success ∧ b = true)
      ∨ (outcomes (attempt + k) = AttemptOutcome.nonRetryableFailure ∧ b = false)) :
    runRetryAux outcomes remaining attempt
      = ⟨b, k + 1, (List.range k).map (fun i => 2 ^ (attempt + i))⟩ := by
  induction k generalizing attempt remaining with
  | zero =>
    cases remaining with
    | zero => omega
    | succ r =>
      rw [Nat.add_zero] at hstop
      rcases hstop with ⟨ho, hb⟩ | ⟨ho, hb⟩ <;> subst hb <;> simp [runRetryAux, ho]
  | succ k ih =>
    cases remaining with
    | zero => omega
    | succ r =>
      have h0 : outcomes attempt = AttemptOutcome.retryableFailure := by
        have := hfail 0 (Nat.succ_pos k)
        rwa [Nat.add_zero] at this
      have hr : 0 < r := by omega
      have hfail2 : ∀ i, i < k → outcomes (attempt + 1 + i) = AttemptOutcome.retryableFailure := by
        intro i hi
        have := hfail (i + 1) (by omega)
        have harith : attempt + (i + 1) = attempt + 1 + i := by omega
        rwa [harith] at this
      have hstop2 : (outcomes (attempt + 1 + k) = AttemptOutcome.success ∧ b = true)
          ∨ (outcomes (attempt + 1 + k) = AttemptOutcome.nonRetryableFailure ∧ b = false) := by
        have harith : attempt + (k + 1) = attempt + 1 + k := by omega
        rwa [harith] at hstop
      have hrec := ih (attempt + 1) r (by omega) hfail2 hstop2
      rw [pow_sleeps_shift]
      simp [runRetryAux, h0, hr, hrec]

theorem runRetryAux_exhaust (outcomes : Nat → AttemptOutcome) :
    ∀ remaining attempt,
      (∀ i, i < remaining → outcomes (attempt + i) = AttemptOutcome.retryableFailure) →
      runRetryAux outcomes remaining attempt
        = ⟨false, remaining, (List.range (remaining - 1)).map (fun i => 2 ^ (attempt + i))⟩ := by
  intro remaining
  induction remaining with
  | zero => intro attempt _; simp [runRetryAux]
  | succ r ih =>
    intro attempt hfail
    have h0 : outcomes attempt = AttemptOutcome.retryableFailure := by
      have := hfail 0 (by omega)
      rwa [Nat.add_zero] at this
    rcases Nat.eq_zero_or_pos r with hr0 | hr
    · subst hr0
      simp [runRetryAux, h0]
    · obtain ⟨r2, rfl⟩ : ∃ r2, r = r2 + 1 := ⟨r - 1, by omega⟩
      have hrec := ih (attempt + 1) (fun i hi => by
        have := hfail (i + 1) (by omega)
        have harith : attempt + (i + 1) = attempt + 1 + i := by omega
        rwa [harith] at this)
      rw [runRetryAux]
      simp only [h0, hr, if_pos hr, hrec]
      simp only [Nat.add_sub_cancel]
      rw [pow_sleeps_shift]
      simp

theorem runRetry_stops (outcomes : Nat → AttemptOutcome) (b : Bool)
    (k max_retries : Nat) (hk : k < max_retries)
    (hfail : ∀ i, i < k → outcomes i = AttemptOutcome.retryableFailure)
    (hstop : (outcomes k = AttemptOutcome.success ∧ b = true)
      ∨ (outcomes k = AttemptOutcome.nonRetryableFailure ∧ b = false)) :
    runRetry outcomes max_retries = ⟨b, k + 1, (List.range k).map (fun i => 2 ^ i)⟩ := by
  have := runRetryAux_stops outcomes b k 0 max_retries hk
    (fun i hi => by rw [Nat.zero_add]; exact hfail i hi)
    (by rwa [Nat.zero_add])
  rw [runRetry, this]
  exact congrArg _ (List.map_congr_left (fun a _ => by rw [Nat.zero_add]))

theorem runRetry_exhaustion (outcomes : Nat → AttemptOutcome) (max_retries : Nat)
    (hfail : ∀ i, i < max_retries → outcomes i = AttemptOutcome.retryableFailure) :
    runRetry outcomes max_retries
      = ⟨false, max_retries, (List.range (max_retries - 1)).map (fun i => 2 ^ i)⟩ := by
  rw [runRetry, runRetryAux_exhaust outcomes max_retries 0
    (fun i hi => by rw [Nat.zero_add]; exact hfail i hi)]
  exact congrArg _ (List.map_congr_left (fun a _ => by rw [Nat.zero_add]))

theorem azureAttempt_retryable {pair : Bool × Bool} (h : (pair.1 && pair.2) = false) :
    azureAttempt pair = AttemptOutcome.retryableFailure := by
  rcases pair with ⟨a, b⟩
  cases a <;> cases b <;> simp_all [azureAttempt]

theorem azureAttempt_success {pair : Bool × Bool} (h1 : pair.1 = true) (h2 : pair.2 = true) :
    azureAttempt pair = AttemptOutcome.success := by
  rcases pair with ⟨a, b⟩
  cases a <;> cases b <;> simp_all [azureAttempt]

end LndBackup

namespace LndBackup

theorem find?_map_set {α : Type} (p : String) (c : α) :
    ∀ m : List (String × α), m.any (fun e => e.1 == p) = true →
      (m.map (fun e => if e.1 == p then (p, c) else e)).find? (fun e => e.1 == p)
        = some (p, c) := by
  intro m
  induction m with
  | nil => intro h; simp at h
  | cons e t ih =>
    intro hany
    by_cases he : (e.1 == p) = true
    · simp only [List.map_cons, if_pos he]
      exact List.find?_cons_of_pos _ (by simp)
    · have ht : t.any (fun e => e.1 == p) = true := by
        simp only [List.any_cons, Bool.or_eq_true] at hany
        rcases hany with h1 | h2
        · exact absurd h1 he
        · exact h2
      simp only [List.map_cons, if_neg he]
      rw [List.find?_cons_of_neg _ (by simpa using he)]
      exact ih ht

theorem find?_map_other {α : Type} (p q : String) (c : α) (hpq : (q == p) = false) :
    ∀ m : List (String × α),
      (m.map (fun e => if e.1 == q then (q, c) else e)).find? (fun e => e.1 == p)
        = m.find? (fun e => e.1 == p) := by
  intro m
  induction m with
  | nil => rfl
  | cons e t ih =>
    by_cases he : (e.1 == q) = true
    · have he1 : e.1 = q := by simpa using he
      simp only [List.map_cons, if_pos he]
      rw [List.find?_cons_of_neg _ (by simpa using hpq),
        List.find?_cons_of_neg _ (by simp [he1]; simpa using hpq)]
      exact ih
    · simp only [List.map_cons, if_neg he]
      by_cases hp : (e.1 == p) = true
      · simp only [List.find?_cons, hp]
      · rw [List.find?_cons_of_neg _ (by simpa using hp),
          List.find?_cons_of_neg _ (by simpa using hp)]
        exact ih

theorem alistGet_set_self {α : Type} (m : List (String × α)) (p : String) (c : α) :
    alistGet (alistSet m p c) p = some c := by
  by_cases hany : m.any (fun e => e.1 == p) = true
  · rw [alistSet, if_pos hany, alistGet, find?_map_set p c m hany]
    rfl
  · rw [alistSet, if_neg hany, alistGet, List.find?_append]
    have hnone : m.find? (fun e => e.1 == p) = none := by
      rw [List.find?_eq_none]
      intro x hx hpx
      exact hany (List.any_eq_true.mpr ⟨x, hx, hpx⟩)
    rw [hnone, Option.none_or, List.find?_cons_of_pos _ (by simp)]
    rfl

theorem alistGet_set_other {α : Type} (m : List (String × α)) (p q : String) (c : α)
    (hne : (q == p) = false) : alistGet (alistSet m q c) p = alistGet m p := by
  by_cases hany : m.any (fun e => e.1 == q) = true
  · rw [alistSet, if_pos hany, alistGet, find?_map_other p q c hne m]
    rfl
  · rw [alistSet, if_neg hany, alistGet, List.find?_append]
    rw [List.find?_cons_of_neg _ (by simpa using hne)]
    simp only [List.find?_nil, Option.or_none]
    rfl

theorem cleanup_local_backups_of_le (keep_last_n : Nat) (local_backup_dir : String)
    (fs : Fs)
    (h : ((fs.map (fun e => e.1)).filter
        (fun p => isLocalBackupFile local_backup_dir p)).length ≤ keep_last_n) :
    cleanup_local_backups keep_last_n local_backup_dir fs = fs := by
  rw [cleanup_local_backups]
  have hlen : (((fs.map (fun e => e.1)).filter
      (fun p => isLocalBackupFile local_backup_dir p)).insertionSort pathLe).length
      = ((fs.map (fun e => e.1)).filter
        (fun p => isLocalBackupFile local_backup_dir p)).length :=
    (List.perm_insertionSort pathLe _).length_eq
  simp only [hlen]
  rw [if_neg (by omega)]
  simp

end LndBackup

namespace LndBackup

/-- C2: when the first k attempts of a provider fail retryably while the
attempt of index k succeeds, with k below max_retries, the Azure retry loop
reports success with exactly k plus one attempts of the
timestamped-then-latest upload pair and backoff sleeps of 1, 2, 4, ...
(2 to the power of the attempt index) between consecutive attempts, and the
Dropbox loop given the corresponding attempt outcomes returns the same
success, attempt count and sleeps. -/
theorem upload_retry_success_C2 (uploads : Nat → Bool × Bool)
    (outcomes : Nat → AttemptOutcome) (keep_last_n max_retries k : Nat)
    (local_backup_dir timestamp : String) (fs : Fs) (file_contents : List Nat)
    (hk : k < max_retries)
    (hfailA : ∀ i, i < k → ((uploads i).1 && (uploads i).2) = false)
    (hsuccA : (uploads k).1 = true ∧ (uploads k).2 = true)
    (hfailD : ∀ i, i < k → outcomes i = AttemptOutcome.retryableFailure)
    (hsuccD : outcomes k = AttemptOutcome.success) :
    ((upload_backup_with_retry keep_last_n local_backup_dir fs file_contents timestamp
          uploads max_retries).success = true
      ∧ (upload_backup_with_retry keep_last_n local_backup_dir fs file_contents timestamp
          uploads max_retries).attempts = k + 1
      ∧ (upload_backup_with_retry keep_last_n local_backup_dir fs file_contents timestamp
          uploads max_retries).sleeps = (List.range k).map (fun i => 2 ^ i))
    ∧ upload_to_dropbox true true outcomes max_retries
        = ⟨true, k + 1, (List.range k).map (fun i => 2 ^ i)⟩ := by
  have houtA : runRetry (fun i => azureAttempt (uploads i)) max_retries
      = ⟨true, k + 1, (List.range k).map (fun i => 2 ^ i)⟩ :=
    runRetry_stops _ true k max_retries hk
      (fun i hi => azureAttempt_retryable (hfailA i hi))
      (Or.inl ⟨azureAttempt_success hsuccA.1 hsuccA.2, rfl⟩)
  have houtD : runRetry outcomes max_retries
      = ⟨true, k + 1, (List.range k).map (fun i => 2 ^ i)⟩ :=
    runRetry_stops _ true k max_retries hk hfailD (Or.inl ⟨hsuccD, rfl⟩)
  refine ⟨⟨?_, ?_, ?_⟩, ?_⟩
  · show (runRetry (fun i => azureAttempt (uploads i)) max_retries).success = true
    rw [houtA]
  · show (runRetry (fun i => azureAttempt (uploads i)) max_retries).attempts = k + 1
    rw [houtA]
  · show (runRetry (fun i => azureAttempt (uploads i)) max_retries).sleeps
      = (List.range k).map (fun i => 2 ^ i)
    rw [houtA]
  · exact houtD

/-- Witness for C2: first attempt fails on the timestamped upload, second
attempt succeeds, max_retries three. -/
theorem upload_retry_success_C2_witness :
    (1 < 3
      ∧ (∀ i, i < 1 →
          (((fun j => if j = 0 then ((false : Bool), (true : Bool)) else (true, true)) i).1
            && ((fun j => if j = 0 then ((false : Bool), (true : Bool)) else (true, true)) i).2)
            = false)
      ∧ (((fun j => if j = 0 then ((false : Bool), (true : Bool)) else (true, true)) 1).1 = true
          ∧ ((fun j => if j = 0 then ((false : Bool), (true : Bool)) else (true, true)) 1).2 = true)
      ∧ (∀ i, i < 1 →
          (fun j => if j = 0 then AttemptOutcome.retryableFailure else AttemptOutcome.success) i
            = AttemptOutcome.retryableFailure)
      ∧ (fun j => if j = 0 then AttemptOutcome.retryableFailure else AttemptOutcome.success) 1
          = AttemptOutcome.success)
    ∧ (((upload_backup_with_retry 30 "/v" [] [1] "t"
            (fun j => if j = 0 then ((false : Bool), (true : Bool)) else (true, true)) 3).success = true
        ∧ (upload_backup_with_retry 30 "/v" [] [1] "t"
            (fun j => if j = 0 then ((false : Bool), (true : Bool)) else (true, true)) 3).attempts = 1 + 1
        ∧ (upload_backup_with_retry 30 "/v" [] [1] "t"
            (fun j => if j = 0 then ((false : Bool), (true : Bool)) else (true, true)) 3).sleeps
            = (List.range 1).map (fun i => 2 ^ i))
      ∧ upload_to_dropbox true true
          (fun j => if j = 0 then AttemptOutcome.retryableFailure else AttemptOutcome.success) 3
          = ⟨true, 1 + 1, (List.range 1).map (fun i => 2 ^ i)⟩) :=
  ⟨⟨by decide, by decide, by decide, by decide, by decide⟩,
    upload_retry_success_C2
      (fun j => if j = 0 then ((false : Bool), (true : Bool)) else (true, true))
      (fun j => if j = 0 then AttemptOutcome.retryableFailure else AttemptOutcome.success)
      30 3 1 "/v" "t" [] [1] (by decide) (by decide) (by decide) (by decide) (by decide)⟩

/-- C3: when every executed attempt of the provider fails retryably, the
Azure loop performs exactly max_retries attempts and reports failure, the
local filesystem after the call is exactly what local_backup wrote before
the first attempt (the loop never touches it), and both the timestamped
local mirror copy and the latest local mirror copy hold the backed-up
bytes; the count hypothesis keeps the local pruning pass, which runs inside
local_backup itself, from deleting any file. -/
theorem upload_retry_exhaustion_C3 (uploads : Nat → Bool × Bool)
    (keep_last_n max_retries : Nat) (local_backup_dir timestamp : String)
    (fs : Fs) (file_contents : List Nat)
    (hfail : ∀ i, i < max_retries → ((uploads i).1 && (uploads i).2) = false)
    (hcount : (((local_backup_writes local_backup_dir fs file_contents timestamp).map
        (fun e => e.1)).filter
          (fun p => isLocalBackupFile local_backup_dir p)).length ≤ keep_last_n) :
    (upload_backup_with_retry keep_last_n local_backup_dir fs file_contents timestamp
        uploads max_retries).success = false
    ∧ (upload_backup_with_retry keep_last_n local_backup_dir fs file_contents timestamp
        uploads max_retries).attempts = max_retries
    ∧ (upload_backup_with_retry keep_last_n local_backup_dir fs file_contents timestamp
        uploads max_retries).localFs
        = local_backup keep_last_n local_backup_dir fs file_contents timestamp
    ∧ alistGet (upload_backup_with_retry keep_last_n local_backup_dir fs file_contents timestamp
        uploads max_retries).localFs
        (localTimestampedPath local_backup_dir timestamp) = some file_contents
    ∧ alistGet (upload_backup_with_retry keep_last_n local_backup_dir fs file_contents timestamp
        uploads max_retries).localFs
        (localLatestPath local_backup_dir) = some file_contents := by
  have hout : runRetry (fun i => azureAttempt (uploads i)) max_retries
      = ⟨false, max_retries, (List.range (max_retries - 1)).map (fun i => 2 ^ i)⟩ :=
    runRetry_exhaustion _ max_retries (fun i hi => azureAttempt_retryable (hfail i hi))
  have hfs : local_backup keep_last_n local_backup_dir fs file_contents timestamp
      = local_backup_writes local_backup_dir fs file_contents timestamp := by
    rw [local_backup]
    exact cleanup_local_backups_of_le _ _ _ hcount
  refine ⟨?_, ?_, rfl, ?_, ?_⟩
  · show (runRetry (fun i => azureAttempt (uploads i)) max_retries).success = false
    rw [hout]
  · show (runRetry (fun i => azureAttempt (uploads i)) max_retries).attempts = max_retries
    rw [hout]
  · show alistGet (local_backup keep_last_n local_backup_dir fs file_contents timestamp)
      (localTimestampedPath local_backup_dir timestamp) = some file_contents
    rw [hfs, local_backup_writes]
    by_cases hpq : localLatestPath local_backup_dir
        = localTimestampedPath local_backup_dir timestamp
    · rw [hpq]
      exact alistGet_set_self _ _ _
    · rw [alistGet_set_other _ _ _ _ (beq_eq_false_iff_ne.mpr hpq)]
      exact alistGet_set_self _ _ _
  · show alistGet (local_backup keep_last_n local_backup_dir fs file_contents timestamp)
      (localLatestPath local_backup_dir) = some file_contents
    rw [hfs, local_backup_writes]
    exact alistGet_set_self _ _ _

/-- Witness for C3: every attempt fails, an empty starting filesystem. -/
theorem upload_retry_exhaustion_C3_witness :
    ((∀ i, i < 3 →
        (((fun _ : Nat => ((false : Bool), (false : Bool))) i).1
          && ((fun _ : Nat => ((false : Bool), (false : Bool))) i).2) = false)
      ∧ (((local_backup_writes "/v" [] [1] "t").map (fun e => e.1)).filter
          (fun p => isLocalBackupFile "/v" p)).length ≤ 30)
    ∧ ((upload_backup_with_retry 30 "/v" [] [1] "t"
          (fun _ : Nat => ((false : Bool), (false : Bool))) 3).success = false
      ∧ (upload_backup_with_retry 30 "/v" [] [1] "t"
          (fun _ : Nat => ((false : Bool), (false : Bool))) 3).attempts = 3
      ∧ (upload_backup_with_retry 30 "/v" [] [1] "t"
          (fun _ : Nat => ((false : Bool), (false : Bool))) 3).localFs
          = local_backup 30 "/v" [] [1] "t"
      ∧ alistGet (upload_backup_with_retry 30 "/v" [] [1] "t"
          (fun _ : Nat => ((false : Bool), (false : Bool))) 3).localFs
          (localTimestampedPath "/v" "t") = some [1]
      ∧ alistGet (upload_backup_with_retry 30 "/v" [] [1] "t"
          (fun _ : Nat => ((false : Bool), (false : Bool))) 3).localFs
          (localLatestPath "/v") = some [1]) :=
  ⟨⟨by decide, by decide⟩,
    upload_retry_exhaustion_C3 (fun _ : Nat => ((false : Bool), (false : Bool)))
      30 3 "/v" "t" [] [1] (by decide) (by decide)⟩

/-- C4: when the attempt of index j hits the non-retryable
insufficient-space error, with every earlier attempt failing retryably, the
Dropbox loop returns failure right after that attempt: exactly j plus one
attempts, and only the j backoff sleeps that preceded the aborting attempt,
none after it, however many retries remain. -/
theorem nonretryable_abort_C4 (outcomes : Nat → AttemptOutcome)
    (max_retries j : Nat) (hj : j < max_retries)
    (hfail : ∀ i, i < j → outcomes i = AttemptOutcome.retryableFailure)
    (habort : outcomes j = AttemptOutcome.nonRetryableFailure) :
    upload_to_dropbox true true outcomes max_retries
      = ⟨false, j + 1, (List.range j).map (fun i => 2 ^ i)⟩ :=
  runRetry_stops outcomes false j max_retries hj hfail (Or.inr ⟨habort, rfl⟩)

/-- Witness for C4: the first attempt hits insufficient space with three
retries configured, so a single attempt runs and no sleep happens. -/
theorem nonretryable_abort_C4_witness :
    (0 < 3
      ∧ (∀ i, i < 0 →
          (fun _ : Nat => AttemptOutcome.nonRetryableFailure) i
            = AttemptOutcome.retryableFailure)
      ∧ (fun _ : Nat => AttemptOutcome.nonRetryableFailure) 0
          = AttemptOutcome.nonRetryableFailure)
    ∧ upload_to_dropbox true true (fun _ : Nat => AttemptOutcome.nonRetryableFailure) 3
        = ⟨false, 0 + 1, (List.range 0).map (fun i => 2 ^ i)⟩ :=
  ⟨⟨by decide, by decide, by decide⟩,
    nonretryable_abort_C4 (fun _ : Nat => AttemptOutcome.nonRetryableFailure) 3 0
      (by decide) (by decide) (by decide)⟩

end LndBackup

namespace LndBackup

/-- C5: deleting a path that is not in the container returns success with
the container unchanged — the not-found outcome is treated as
already-satisfied — while a genuine transport fault returns failure, so the
success on not-found is a deliberate branch, not the absence of error
handling. -/
theorem delete_idempotent_C5 (container : List String) (path : String)
    (h : container.contains path = false) :
    delete_file none container path = (true, container)
    ∧ delete_file (some AzureException.azureError) container path = (false, container) := by
  constructor
  · have h2 : path ∉ container := by simpa using h
    simp [delete_file, blobDeleteCall, h2]
  · rfl

/-- Witness for C5: deleting from an empty container succeeds. -/
theorem delete_idempotent_C5_witness :
    (List.contains [] "x" = false)
    ∧ (delete_file none [] "x" = (true, [])
      ∧ delete_file (some AzureException.azureError) [] "x" = (false, [])) :=
  ⟨by decide, delete_idempotent_C5 [] "x" (by decide)⟩

/-- C6: a connection string whose scheme is not registered makes
create_provider_from_connection_string fail with the unknown-provider error
carrying the offending scheme and the full list of registered provider
names, constructing no provider; create_provider behaves the same for an
unregistered explicit type name. -/
theorem factory_unknown_C6 (providers : List String) (connection_string : String)
    (config : Dict) (name : String)
    (hcs : connection_string ≠ "")
    (hs : providers.contains (schemeOf connection_string) = false)
    (hn : providers.contains name = false) :
    create_provider_from_connection_string providers connection_string config
      = Except.error (FactoryError.unknownProvider (schemeOf connection_string) providers)
    ∧ create_provider providers name config
      = Except.error (FactoryError.unknownProvider name providers) := by
  have hs2 : schemeOf connection_string ∉ providers := by simpa using hs
  have hn2 : name ∉ providers := by simpa using hn
  constructor
  · simp [create_provider_from_connection_string, hcs, hs2]
  · simp [create_provider, hn2]

/-- Witness for C6: scheme ftp and explicit name s3 against a registry
holding only azure. -/
theorem factory_unknown_C6_witness :
    (("ftp://x" : String) ≠ ""
      ∧ List.contains ["azure"] (schemeOf "ftp://x") = false
      ∧ List.contains ["azure"] "s3" = false)
    ∧ (create_provider_from_connection_string ["azure"] "ftp://x" []
        = Except.error (FactoryError.unknownProvider (schemeOf "ftp://x") ["azure"])
      ∧ create_provider ["azure"] "s3" []
        = Except.error (FactoryError.unknownProvider "s3" ["azure"])) :=
  ⟨⟨by decide, by decide, by decide⟩,
    factory_unknown_C6 ["azure"] "ftp://x" [] "s3" (by decide) (by decide) (by decide)⟩

theorem list_backups_loop_eq_filter (l : List (String × Nat)) :
    list_backups_loop l
      = l.filter (fun b => List.isSuffixOf ".backup".data b.1.data) := by
  induction l with
  | nil => rfl
  | cons b rest ih =>
    cases hb : List.isSuffixOf ".backup".data b.1.data with
    | true => simp [list_backups_loop, hb, ih, List.filter_cons]
    | false => simp [list_backups_loop, hb, ih, List.filter_cons]

/-- C7 counterexample: a checksum side-file under the caller-scoped prefix
appears in the spec-worded unfiltered listing but not in the list_backups
result, because list_backups itself filters by the .backup suffix — so the
listing is not unfiltered by name pattern. -/
theorem list_backups_C7_counterexample :
    list_backups [("d/s/tapd-backup-1.checksums", 0)] "d/s"
      ≠ list_backups_specUnfiltered [("d/s/tapd-backup-1.checksums", 0)] "d/s" := by
  decide

/-- C7 amended: list_backups returns exactly the entries under the
caller-scoped prefix that end with the .backup suffix, and applies no other
name filtering — in particular the channel-backup marker filter that
excludes the latest pointer is left to the caller, the retention pass. -/
theorem list_backups_C7_amended (blobs : List (String × Nat)) (system_dir : String) :
    list_backups blobs system_dir
      = blobs.filter (fun b => List.isPrefixOf system_dir.data b.1.data
          && List.isSuffixOf ".backup".data b.1.data) := by
  rw [list_backups, list_backups_loop_eq_filter, List.filter_filter]
  exact List.filter_congr (fun a _ => Bool.and_comm _ _)

/-- C8: the retention pass returns the pre-deletion count of matching
records — when more than keep_last_n records match, the returned figure
differs from the post-prune count, which is keep_last_n — the caller
displays min of the returned count and keep_last_n, and a failed listing
makes the pass return 0. -/
theorem cleanup_return_count_C8 (keep_last_n : Nat) (l : List (String × Nat))
    (hM : keep_last_n < (matchingBackups l).length) :
    (cleanup_old_backups keep_last_n (Except.ok l)).2 = (matchingBackups l).length
    ∧ cleanup_old_backups keep_last_n (Except.error ()) = ([], 0)
    ∧ (cleanup_old_backups keep_last_n (Except.ok l)).2
        ≠ (cleanupKept keep_last_n l).length
    ∧ maintained_display (cleanup_old_backups keep_last_n (Except.ok l)).2 keep_last_n
        = (cleanupKept keep_last_n l).length := by
  have hkept : (cleanupKept keep_last_n l).length = keep_last_n := by
    simp only [cleanupKept]
    rw [List.length_take, sortedBackups_length, inf_eq_min]
    exact Nat.min_eq_left (Nat.le_of_lt hM)
  refine ⟨rfl, rfl, ?_, ?_⟩
  · rw [hkept]
    show (matchingBackups l).length ≠ keep_last_n
    omega
  · rw [hkept]
    show maintained_display (matchingBackups l).length keep_last_n = keep_last_n
    rw [maintained_display]
    exact Nat.min_eq_right (Nat.le_of_lt hM)

/-- Witness for C8: two matching records with keep_last_n one. -/
theorem cleanup_return_count_C8_witness :
    (1 < (matchingBackups [("/channel-backup-x.backup", 9),
        ("/channel-backup-y.backup", 7)]).length)
    ∧ ((cleanup_old_backups 1 (Except.ok [("/channel-backup-x.backup", 9),
          ("/channel-backup-y.backup", 7)])).2
        = (matchingBackups [("/channel-backup-x.backup", 9),
            ("/channel-backup-y.backup", 7)]).length
      ∧ cleanup_old_backups 1 (Except.error ()) = ([], 0)
      ∧ (cleanup_old_backups 1 (Except.ok [("/channel-backup-x.backup", 9),
            ("/channel-backup-y.backup", 7)])).2
          ≠ (cleanupKept 1 [("/channel-backup-x.backup", 9),
              ("/channel-backup-y.backup", 7)]).length
      ∧ maintained_display (cleanup_old_backups 1 (Except.ok [("/channel-backup-x.backup", 9),
            ("/channel-backup-y.backup", 7)])).2 1
          = (cleanupKept 1 [("/channel-backup-x.backup", 9),
              ("/channel-backup-y.backup", 7)]).length) :=
  ⟨by decide,
    cleanup_return_count_C8 1 [("/channel-backup-x.backup", 9),
      ("/channel-backup-y.backup", 7)] (by decide)⟩

/-- C9 counterexample: the claim says an absent source file always exits 0,
but backup.py checks the connection configuration first — with no
connection string and the source file absent the process exits 1. -/
theorem cli_exit_C9_counterexample :
    backup_main none false true = 1 ∧ backup_main none false true ≠ 0 := by
  exact ⟨rfl, by decide⟩

/-- C9 amended: missing connection configuration makes backup.py exit 1
even when the source file is absent, because the configuration check runs
first; with configuration present an absent source file exits 0, a
successful backup 0 and a failed backup 1. tapd_backup.py checks the source
directory first: an absent directory exits 0 whatever else holds, an
existing directory with no database files exits 1, and otherwise the
upload result decides between 0 and 1. -/
theorem cli_exit_codes_C9 (s : String) (fe ok db up : Bool) :
    backup_main none fe ok = 1
    ∧ backup_main (some s) false ok = 0
    ∧ backup_main (some s) true true = 0
    ∧ backup_main (some s) true false = 1
    ∧ tapd_main false db up = 0
    ∧ tapd_main true false up = 1
    ∧ tapd_main true true true = 0
    ∧ tapd_main true true false = 1 :=
  ⟨rfl, rfl, rfl, rfl, rfl, rfl, rfl, rfl⟩

/-- C10: with a registered scheme the factory succeeds, handing the
constructor the copy of the config extended with the connection-string key
while the caller-owned dict comes out of the call unchanged; every other
key of the extended copy answers exactly as in the original dict. -/
theorem factory_frame_C10 (providers : List String) (connection_string : String)
    (config : Dict)
    (hcs : connection_string ≠ "")
    (hs : providers.contains (schemeOf connection_string) = true) :
    create_provider_from_connection_string providers connection_string config
      = Except.ok (alistSet config connection_string_key connection_string, config)
    ∧ alistGet (alistSet config connection_string_key connection_string)
        connection_string_key = some connection_string
    ∧ ∀ k2, k2 ≠ connection_string_key →
        alistGet (alistSet config connection_string_key connection_string) k2
          = alistGet config k2 := by
  refine ⟨?_, alistGet_set_self _ _ _, ?_⟩
  · have hs2 : schemeOf connection_string ∈ providers := by simpa using hs
    simp [create_provider_from_connection_string, hcs, hs2]
  · intro k2 hk2
    exact alistGet_set_other _ _ _ _ (beq_eq_false_iff_ne.mpr (Ne.symm hk2))

/-- Witness for C10: an azure connection string against a registry holding
azure, with a one-entry starting config. -/
theorem factory_frame_C10_witness :
    (("azure://h/c" : String) ≠ ""
      ∧ List.contains ["azure"] (schemeOf "azure://h/c") = true)
    ∧ (create_provider_from_connection_string ["azure"] "azure://h/c"
          [("backup_dir", "/lightning-backups")]
        = Except.ok (alistSet [("backup_dir", "/lightning-backups")]
            connection_string_key "azure://h/c",
          [("backup_dir", "/lightning-backups")])
      ∧ alistGet (alistSet [("backup_dir", "/lightning-backups")]
          connection_string_key "azure://h/c") connection_string_key
          = some "azure://h/c"
      ∧ ∀ k2, k2 ≠ connection_string_key →
          alistGet (alistSet [("backup_dir", "/lightning-backups")]
            connection_string_key "azure://h/c") k2
            = alistGet [("backup_dir", "/lightning-backups")] k2) :=
  ⟨⟨by decide, by decide⟩,
    factory_frame_C10 ["azure"] "azure://h/c" [("backup_dir", "/lightning-backups")]
      (by decide) (by decide)⟩

end LndBackup
